import Mathlib

/-!
Shallow embedding of the request/response pipeline of `src/client.rs`:
client construction, header assembly, URL and form encoding, and dispatch.

External collaborators (reqwest transport, serde_json / serde_qs
serialization) are modelled as explicit parameters: a call site passes the
outcome the collaborator would produce.  Crate-internal types that are not
under `src/` (`crate::params::Headers`, `crate::error::*`) are modelled from
the spec, as marked on each definition.
-/

namespace Stripe

/-- Modelled from the spec: `crate::params::Headers` is not under `src/`.
The spec (§3, §4.2) gives three optional fields, all absent by default:
impersonated account, client id, API version. -/
structure Headers where
  stripe_account : Option String := none
  client_id : Option String := none
  stripe_version : Option String := none
deriving Repr, DecidableEq

/-- The client state of `Client` in `src/client.rs`: an opaque transport
handle (`reqwest::Client`, modelled as a number), the secret credential, the
header configuration and the resolved host. -/
structure Client where
  client : Nat
  secret_key : String
  headers : Headers
  host : String
deriving Repr, DecidableEq

/-- `url.ends_with('/')`, modelled at character level: the last character
is a slash. -/
def endsWithSlash (s : String) : Bool :=
  s.toList.getLast? == some '/'

/-- `Client::from_url` (`src/client.rs:24`): normalize the trailing slash of
the base URL and append the version segment. -/
def Client.from_url (scheme_host : String) (secret_key : String) : Client :=
  let host := if endsWithSlash scheme_host then scheme_host ++ "v1"
    else scheme_host ++ "/v1"
  { client := 0, secret_key := secret_key, headers := {}, host := host }

/-- `Client::new` (`src/client.rs:19`): points to the production host. -/
def Client.new (secret_key : String) : Client :=
  Client.from_url "https://api.stripe.com/" secret_key

/-- `Client::with_headers` (`src/client.rs:39`): clone with a replaced
header configuration.  The embedding is functional, so the original value is
untouched by construction. -/
def Client.with_headers (c : Client) (headers : Headers) : Client :=
  { c with headers := headers }

/-- `Client::set_stripe_account` (`src/client.rs:49`): the one in-place
mutation, modelled as returning the updated state. -/
def Client.set_stripe_account (c : Client) (account_id : String) : Client :=
  { c with headers := { c.headers with stripe_account := some account_id } }

/-- `Client::url` (`src/client.rs:108`): `format!("{}/{}", host, &path[1..])`.
The byte slice `&path[1..]` panics when `path` is empty; a panic is modelled
as `none`.  (Strings are modelled at character level, where dropping the
first character of a non-empty path is total.) -/
def Client.url (c : Client) (path : String) : Option String :=
  if path = "" then none
  else some (c.host ++ "/" ++ path.drop 1)

/-- Modelled from the spec: `crate::error::RequestError` is not under
`src/`.  Per §3/§7 the structured error value carries a message, a
kind/code, and the HTTP status (`http_status`, a field `send` assigns). -/
structure RequestError where
  http_status : Nat := 0
  code : Option String := none
  message : Option String := none
deriving Repr, DecidableEq

/-- Modelled from the spec: `crate::error::ErrorResponse` is not under
`src/`.  §6: error bodies are JSON shaped as an envelope around the error
object, `{ "error": { ... } }`. -/
structure ErrorResponse where
  error : RequestError
deriving Repr, DecidableEq

/-- Modelled from the spec: `crate::error::Error` is not under `src/`.
§7 gives the taxonomy: transport, serialize, deserialize and API errors. -/
inductive Error where
  | transport (msg : String)
  | serialize (msg : String)
  | deserialize (msg : String)
  | api (err : RequestError)
deriving Repr, DecidableEq

/-- A character the `http` crate accepts in a header value: horizontal tab
or any byte that is neither a control character nor DEL.  (Characters above
127 encode to UTF-8 bytes above 127, which pass the byte check.) -/
def isValidHeaderChar (c : Char) : Bool :=
  c == '\t' || (decide (32 ≤ c.toNat) && decide (c.toNat ≠ 127))

/-- A string accepted as a header value. -/
def ValidHeaderString (s : String) : Prop :=
  s.toList.all isValidHeaderChar = true

instance (s : String) : Decidable (ValidHeaderString s) := by
  unfold ValidHeaderString; infer_instance

/-- `HeaderValue::from_str` of the external `http` crate: fails on a string
holding an invalid header character.  `src/client.rs` calls `.unwrap()` on
its result, so a failure here is the panic the spec flags. -/
def headerValueFromStr (s : String) : Option String :=
  if s.toList.all isValidHeaderChar then some s else none

/-- `Client::headers` (`src/client.rs:134`): build the outgoing header set.
`none` models the panic of an `unwrap` on an invalid header value.  The
`HeaderMap` is modelled as a list in insertion order; the four inserted
names are pairwise distinct, so `insert` never replaces an entry. -/
def Client.headerMap (c : Client) : Option (List (String × String)) := do
  let auth ← headerValueFromStr ("Bearer " ++ c.secret_key)
  let hs := [("authorization", auth)]
  let hs ← match c.headers.stripe_account with
    | none => pure hs
    | some account => do
      let v ← headerValueFromStr account
      pure (hs ++ [("stripe-account", v)])
  let hs ← match c.headers.client_id with
    | none => pure hs
    | some client_id => do
      let v ← headerValueFromStr client_id
      pure (hs ++ [("client-id", v)])
  let hs ← match c.headers.stripe_version with
    | none => pure hs
    | some stripe_version => do
      let v ← headerValueFromStr stripe_version
      pure (hs ++ [("stripe-version", v)])
  pure hs

/-- The response the transport hands back: status code and buffered body. -/
structure HttpResponse where
  status : Nat
  body : String
deriving Repr, DecidableEq

/-- The request a verb method builds before dispatch: method, resolved URL,
header set, optional encoded body. -/
structure RequestBuilder where
  method : String
  url : String
  headers : List (String × String)
  body : Option String
deriving Repr, DecidableEq

/-- `reqwest::StatusCode::is_success`: the 2xx range. -/
def statusIsSuccess (status : Nat) : Bool :=
  decide (200 ≤ status) && decide (status < 300)

/-- `with_form_urlencoded` (`src/client.rs:202`): `serde_qs::to_string` is
external, so its outcome is the `serForm` parameter.  A serialization
failure maps to `Error::serialize`; success sets the Content-Type header
and the body. -/
def with_form_urlencoded (request : RequestBuilder) (serForm : Except String String) :
    Except Error RequestBuilder :=
  match serForm with
  | .error e => .error (.serialize e)
  | .ok body => .ok { request with
      headers := request.headers ++
        [("content-type", "application/x-www-form-urlencoded")],
      body := some body }

/-- `send` (`src/client.rs:212`).  `transportResult` is the outcome of
`request.send()` plus `read_to_string` (external reqwest); `parseT` and
`parseErr` are the outcomes `serde_json::from_str` would give on a body,
for the success type and the error envelope.  Non-2xx: decode the error
envelope, fall back to a synthetic message on a parse failure, and always
stamp the actual HTTP status.  2xx: decode the success type. -/
def send {T : Type} (transportResult : Except String HttpResponse)
    (parseT : String → Except String T)
    (parseErr : String → Except String ErrorResponse) : Except Error T :=
  match transportResult with
  | .error e => .error (.transport e)
  | .ok response =>
    if statusIsSuccess response.status then
      match parseT response.body with
      | .ok v => .ok v
      | .error e => .error (.deserialize e)
    else
      let err := match parseErr response.body with
        | .ok envelope => envelope
        | .error e =>
          { error := { message := some ("failed to deserialize error: " ++ e) } }
      .error (.api { err.error with http_status := response.status })

/-- `Client::url_with_params` (`src/client.rs:112`): serialization runs
first (its failure maps to `Error::serialize` and returns early), then the
path slice, which panics (`none`) on the empty path. -/
def Client.url_with_params (c : Client) (path : String)
    (serParams : Except String String) : Option (Except Error String) :=
  match serParams with
  | .error e => some (.error (.serialize e))
  | .ok params =>
    if path = "" then none
    else some (.ok (c.host ++ "/" ++ path.drop 1 ++ "?" ++ params))

/-- `Client::get` (`src/client.rs:54`): plain-path GET. -/
def Client.get {T : Type} (c : Client) (path : String)
    (transport : RequestBuilder → Except String HttpResponse)
    (parseT : String → Except String T)
    (parseErr : String → Except String ErrorResponse) :
    Option (Except Error T) := do
  let url ← c.url path
  let hs ← c.headerMap
  pure (send (transport ⟨"GET", url, hs, none⟩) parseT parseErr)

/-- `Client::get_query` (`src/client.rs:61`): GET with query parameters;
`serParams` is the outcome of `serde_qs::to_string` on the parameters. -/
def Client.get_query {T : Type} (c : Client) (path : String)
    (serParams : Except String String)
    (transport : RequestBuilder → Except String HttpResponse)
    (parseT : String → Except String T)
    (parseErr : String → Except String ErrorResponse) :
    Option (Except Error T) :=
  match c.url_with_params path serParams with
  | none => none
  | some (.error e) => some (.error e)
  | some (.ok url) =>
    match c.headerMap with
    | none => none
    | some hs => some (send (transport ⟨"GET", url, hs, none⟩) parseT parseErr)

/-- `Client::delete` (`src/client.rs:72`): plain-path DELETE. -/
def Client.delete {T : Type} (c : Client) (path : String)
    (transport : RequestBuilder → Except String HttpResponse)
    (parseT : String → Except String T)
    (parseErr : String → Except String ErrorResponse) :
    Option (Except Error T) := do
  let url ← c.url path
  let hs ← c.headerMap
  pure (send (transport ⟨"DELETE", url, hs, none⟩) parseT parseErr)

/-- `Client::delete_query` (`src/client.rs:79`). -/
def Client.delete_query {T : Type} (c : Client) (path : String)
    (serParams : Except String String)
    (transport : RequestBuilder → Except String HttpResponse)
    (parseT : String → Except String T)
    (parseErr : String → Except String ErrorResponse) :
    Option (Except Error T) :=
  match c.url_with_params path serParams with
  | none => none
  | some (.error e) => some (.error e)
  | some (.ok url) =>
    match c.headerMap with
    | none => none
    | some hs => some (send (transport ⟨"DELETE", url, hs, none⟩) parseT parseErr)

/-- `Client::post` (`src/client.rs:90`): plain-path POST. -/
def Client.post {T : Type} (c : Client) (path : String)
    (transport : RequestBuilder → Except String HttpResponse)
    (parseT : String → Except String T)
    (parseErr : String → Except String ErrorResponse) :
    Option (Except Error T) := do
  let url ← c.url path
  let hs ← c.headerMap
  pure (send (transport ⟨"POST", url, hs, none⟩) parseT parseErr)

/-- `Client::post_form` (`src/client.rs:97`): the URL and headers are built
first, then the form body is attached; a serialization failure surfaces as
`Error::serialize` before any dispatch. -/
def Client.post_form {T : Type} (c : Client) (path : String)
    (serForm : Except String String)
    (transport : RequestBuilder → Except String HttpResponse)
    (parseT : String → Except String T)
    (parseErr : String → Except String ErrorResponse) :
    Option (Except Error T) :=
  match c.url path with
  | none => none
  | some url =>
    match c.headerMap with
    | none => none
    | some hs =>
      match with_form_urlencoded ⟨"POST", url, hs, none⟩ serForm with
      | .error e => some (.error e)
      | .ok request => some (send (transport request) parseT parseErr)

mutual
/-- Modelled from the spec: the external `serde_qs` serializer and the
generated parameter structs (e.g. `CreateCustomer`) are not under `src/`.
A serializable parameter value is a tree of strings and key/value objects
(§4.3: nested maps/structs). -/
inductive QsValue where
  | str (s : String)
  | obj (fields : QsFields)
deriving Repr, DecidableEq

inductive QsFields where
  | nil : QsFields
  | cons (key : String) (value : QsValue) (rest : QsFields) : QsFields
deriving Repr, DecidableEq
end

/-- The UTF-8 bytes of a character, for percent-encoding. -/
def utf8Bytes (c : Char) : List Nat :=
  let n := c.toNat
  if n < 0x80 then [n]
  else if n < 0x800 then [0xC0 + n / 0x40, 0x80 + n % 0x40]
  else if n < 0x10000 then
    [0xE0 + n / 0x1000, 0x80 + n / 0x40 % 0x40, 0x80 + n % 0x40]
  else
    [0xF0 + n / 0x40000, 0x80 + n / 0x1000 % 0x40, 0x80 + n / 0x40 % 0x40,
      0x80 + n % 0x40]

/-- Uppercase hexadecimal digit. -/
def hexDigit (n : Nat) : Char :=
  if n < 10 then Char.ofNat (48 + n) else Char.ofNat (55 + n)

/-- A character left unescaped by the form/query percent-encoder. -/
def isUnreserved (c : Char) : Bool :=
  c.isAlphanum || c == '-' || c == '_' || c == '.' || c == '~'

/-- Percent-encode one character. -/
def percentEncodeChar (c : Char) : String :=
  if isUnreserved c then String.singleton c
  else String.join ((utf8Bytes c).map (fun b =>
    "%" ++ String.singleton (hexDigit (b / 16)) ++ String.singleton (hexDigit (b % 16))))

/-- Percent-encode a string (values and key segments). -/
def percentEncode (s : String) : String :=
  String.join (s.toList.map percentEncodeChar)

mutual
/-- Modelled from the spec: bracket-notation flattening (§4.3, glossary) of
the external `serde_qs` serializer.  `key` is `none` at the top level; a
field under key `p` with name `k` gets the key `p[k]`. -/
def qsPairs (key : Option String) : QsValue → List (String × String)
  | .str s => [(key.getD "", percentEncode s)]
  | .obj fields => qsPairsFields key fields

def qsPairsFields (key : Option String) : QsFields → List (String × String)
  | .nil => []
  | .cons k v rest =>
    qsPairs (some (match key with
      | none => percentEncode k
      | some p => p ++ "[" ++ percentEncode k ++ "]")) v
      ++ qsPairsFields key rest
end

/-- `serde_qs::to_string`: the flattened pairs joined as a form body. -/
def qsEncode (v : QsValue) : String :=
  String.intercalate "&" ((qsPairs none v).map (fun kv => kv.1 ++ "=" ++ kv.2))

/-- The form of the `serialize_metadata` test (`src/client.rs:240`):
email `jdoe@example.org` and metadata map `{any: thing}`. -/
def exampleForm : QsValue :=
  .obj (.cons "email" (.str "jdoe@example.org")
    (.cons "metadata" (.obj (.cons "any" (.str "thing") .nil)) .nil))

/-- The optional-header contribution the spec describes (§4.2): nothing
when the field is unset, one name/value pair when it is set. -/
def optHeader (name : String) : Option String → List (String × String)
  | none => []
  | some v => [(name, v)]

/-- Observer: the HTTP-status field of a dispatch outcome, when the outcome
is a structured API error; `none` for every other outcome. -/
def apiErrorStatus {T : Type} : Except Error T → Option Nat
  | .error (.api re) => some re.http_status
  | _ => none

/-- Observer: the message of a dispatch outcome, when the outcome is a
structured API error; `none` for every other outcome. -/
def apiErrorMessage {T : Type} : Except Error T → Option String
  | .error (.api re) => re.message
  | _ => none

/-- A concrete client state: secret key `sk_test_123`, impersonating
`acct_123`, pinned API version, no client id. -/
def exampleClient : Client :=
  ⟨0, "sk_test_123", ⟨some "acct_123", none, some "2020-08-27"⟩, "https://api.stripe.com/v1"⟩

/-- When the credential and every configured optional value are valid
header strings, `Client::headers` builds exactly the authorization entry
followed by the configured optional entries, in insertion order. -/
theorem headerMap_eq_of_valid (c : Client)
    (hauth : ValidHeaderString ("Bearer " ++ c.secret_key))
    (hacct : ∀ a, c.headers.stripe_account = some a → ValidHeaderString a)
    (hcid : ∀ a, c.headers.client_id = some a → ValidHeaderString a)
    (hver : ∀ a, c.headers.stripe_version = some a → ValidHeaderString a) :
    c.headerMap = some (("authorization", "Bearer " ++ c.secret_key) ::
      (optHeader "stripe-account" c.headers.stripe_account ++
       optHeader "client-id" c.headers.client_id ++
       optHeader "stripe-version" c.headers.stripe_version)) := by
  obtain ⟨cl, sk, ⟨sa, ci, sv⟩, host⟩ := c
  rcases sa with _ | a <;> rcases ci with _ | b <;> rcases sv with _ | d <;>
    simp_all [Client.headerMap, headerValueFromStr, optHeader, ValidHeaderString]

/-- C1: for every client state with header-valid credential and optional
values, the built header set is exactly one authorization entry valued
`Bearer <credential>`, plus `stripe-account` / `client-id` /
`stripe-version` entries present iff the corresponding field is
configured (valued exactly as configured), and no other entries. -/
theorem headers_built_exactly (c : Client)
    (hauth : ValidHeaderString ("Bearer " ++ c.secret_key))
    (hacct : ∀ a, c.headers.stripe_account = some a → ValidHeaderString a)
    (hcid : ∀ a, c.headers.client_id = some a → ValidHeaderString a)
    (hver : ∀ a, c.headers.stripe_version = some a → ValidHeaderString a) :
    ∃ hs, c.headerMap = some hs ∧
      hs.filter (fun kv => kv.1 == "authorization") =
        [("authorization", "Bearer " ++ c.secret_key)] ∧
      (∀ v, ("stripe-account", v) ∈ hs ↔ c.headers.stripe_account = some v) ∧
      (∀ v, ("client-id", v) ∈ hs ↔ c.headers.client_id = some v) ∧
      (∀ v, ("stripe-version", v) ∈ hs ↔ c.headers.stripe_version = some v) ∧
      (∀ kv ∈ hs, kv.1 = "authorization" ∨ kv.1 = "stripe-account" ∨
        kv.1 = "client-id" ∨ kv.1 = "stripe-version") := by
  refine ⟨_, headerMap_eq_of_valid c hauth hacct hcid hver, ?_, ?_, ?_, ?_, ?_⟩ <;>
    obtain ⟨cl, sk, ⟨sa, ci, sv⟩, host⟩ := c <;>
    rcases sa with _ | a <;> rcases ci with _ | b <;> rcases sv with _ | d <;>
    simp [optHeader, List.filter, eq_comm]

/-- C1 witness: the header set of `exampleClient`, by the theorem. -/
theorem headers_built_exactly_witness :
    ∃ hs, exampleClient.headerMap = some hs ∧
      hs.filter (fun kv => kv.1 == "authorization") =
        [("authorization", "Bearer " ++ exampleClient.secret_key)] ∧
      (∀ v, ("stripe-account", v) ∈ hs ↔
        exampleClient.headers.stripe_account = some v) ∧
      (∀ v, ("client-id", v) ∈ hs ↔ exampleClient.headers.client_id = some v) ∧
      (∀ v, ("stripe-version", v) ∈ hs ↔
        exampleClient.headers.stripe_version = some v) ∧
      (∀ kv ∈ hs, kv.1 = "authorization" ∨ kv.1 = "stripe-account" ∨
        kv.1 = "client-id" ∨ kv.1 = "stripe-version") :=
  headers_built_exactly exampleClient (by decide)
    (by intro a ha; rw [show exampleClient.headers.stripe_account = some "acct_123" from rfl,
          Option.some.injEq] at ha; subst ha; decide)
    (by intro a ha; simp [exampleClient] at ha)
    (by intro a ha; rw [show exampleClient.headers.stripe_version = some "2020-08-27" from rfl,
          Option.some.injEq] at ha; subst ha; decide)

/-- C9: header assembly panics (modelled as `none`) on a credential or a
configured account id holding a character invalid in a header value, and it
is total once the credential and every configured optional value are valid
header strings. -/
theorem header_assembly_panics_on_invalid :
    ((Client.mk 0 "sk\n" ⟨none, none, none⟩ "https://api.stripe.com/v1").headerMap
      = none) ∧
    ((Client.mk 0 "sk" ⟨some "acct\n", none, none⟩ "https://api.stripe.com/v1").headerMap
      = none) ∧
    (∀ c : Client, ValidHeaderString ("Bearer " ++ c.secret_key) →
      (∀ a, c.headers.stripe_account = some a → ValidHeaderString a) →
      (∀ a, c.headers.client_id = some a → ValidHeaderString a) →
      (∀ a, c.headers.stripe_version = some a → ValidHeaderString a) →
      (c.headerMap).isSome = true) := by
  refine ⟨by decide, by decide, fun c h1 h2 h3 h4 => ?_⟩
  rw [headerMap_eq_of_valid c h1 h2 h3 h4]
  rfl

/-- C9 witness: an all-valid client state builds its header set, by the
theorem; the two panic conjuncts are already closed. -/
theorem header_assembly_panics_on_invalid_witness :
    ((Client.mk 0 "sk_test_123" ⟨none, none, none⟩ "https://api.stripe.com/v1").headerMap).isSome
      = true :=
  header_assembly_panics_on_invalid.2.2 _ (by decide)
    (by intro a ha; simp at ha) (by intro a ha; simp at ha)
    (by intro a ha; simp at ha)

/-- C2: for every non-2xx response, `send` returns a structured API error
whose HTTP-status field equals the actual response status, for every
possible error-envelope parse outcome (so any status the body claims is
overridden), with or without the fallback synthetic error. -/
theorem non_success_error_carries_actual_status {T : Type} (response : HttpResponse)
    (parseT : String → Except String T)
    (parseErr : String → Except String ErrorResponse)
    (h : statusIsSuccess response.status = false) :
    apiErrorStatus (send (.ok response) parseT parseErr) = some response.status := by
  rcases hbody : parseErr response.body with e | envelope <;>
    simp [send, h, hbody, apiErrorStatus]

/-- C2 witness: a 404 response whose body parses to an envelope claiming
status 500 still surfaces status 404, by the theorem. -/
theorem non_success_error_carries_actual_status_witness :
    apiErrorStatus (send (.ok ⟨404, "body"⟩)
      ((fun _ => .error "no") : String → Except String Nat)
      (fun _ => .ok ⟨{ http_status := 500 }⟩)) = some 404 :=
  non_success_error_carries_actual_status ⟨404, "body"⟩ _ _ (by decide)

/-- C3: for every non-2xx response whose body fails to parse as the error
envelope, `send` still returns a structured API error (carrying the actual
status) whose message is the synthetic text embedding the parse-failure
detail. -/
theorem malformed_error_body_yields_synthetic_error {T : Type}
    (response : HttpResponse) (parseT : String → Except String T)
    (parseErr : String → Except String ErrorResponse) (msg : String)
    (h : statusIsSuccess response.status = false)
    (hbody : parseErr response.body = .error msg) :
    apiErrorStatus (send (.ok response) parseT parseErr) = some response.status ∧
    apiErrorMessage (send (.ok response) parseT parseErr) =
      some ("failed to deserialize error: " ++ msg) := by
  constructor <;> simp [send, h, hbody, apiErrorStatus, apiErrorMessage]

/-- C3 witness: a 500 response with a non-JSON body, by the theorem. -/
theorem malformed_error_body_yields_synthetic_error_witness :
    apiErrorStatus (send (.ok ⟨500, "<html>"⟩)
      ((fun _ => .error "no") : String → Except String Nat)
      (fun _ => .error "expected value at line 1")) = some 500 ∧
    apiErrorMessage (send (.ok ⟨500, "<html>"⟩)
      ((fun _ => .error "no") : String → Except String Nat)
      (fun _ => .error "expected value at line 1")) =
      some ("failed to deserialize error: " ++ "expected value at line 1") :=
  malformed_error_body_yields_synthetic_error ⟨500, "<html>"⟩ _ _
    "expected value at line 1" (by decide) rfl

/-- C4: for every 2xx response, `send` returns exactly the outcome of
parsing the body as the caller-specified success type: the parsed value on
success, and a deserialize error carrying the parse message on failure. -/
theorem success_returns_parsed_body {T : Type} (response : HttpResponse)
    (parseT : String → Except String T)
    (parseErr : String → Except String ErrorResponse)
    (h : statusIsSuccess response.status = true) :
    (∀ v, parseT response.body = .ok v →
      send (.ok response) parseT parseErr = .ok v) ∧
    (∀ e, parseT response.body = .error e →
      send (.ok response) parseT parseErr = .error (.deserialize e)) := by
  constructor <;> intro x hx <;> simp [send, h, hx]

/-- C4 witness: a 200 response parsed as the number 7, by the theorem. -/
theorem success_returns_parsed_body_witness :
    send (.ok (⟨200, "7"⟩ : HttpResponse))
      ((fun _ => .ok 7) : String → Except String Nat)
      (fun _ => .error "no") = .ok 7 :=
  (success_returns_parsed_body ⟨200, "7"⟩ _ (fun _ => .error "no")
    (by decide)).1 7 rfl

/-- C5: `from_url` appends `v1` after normalizing the trailing slash, the
plain-path URL builder concatenates the resolved host, a separator and the
path with its leading separator stripped, and the spec's scenario holds
concretely. -/
theorem from_url_resolves_host_and_url :
    (∀ base sk : String, endsWithSlash base = true →
      (Client.from_url base sk).host = base ++ "v1") ∧
    (∀ base sk : String, endsWithSlash base = false →
      (Client.from_url base sk).host = base ++ "/v1") ∧
    (∀ base sk path : String, path ≠ "" →
      (Client.from_url base sk).url path =
        some ((Client.from_url base sk).host ++ "/" ++ path.drop 1)) ∧
    (Client.from_url "https://api.example.com/" "sk_test_123").host =
      "https://api.example.com/v1" ∧
    (Client.from_url "https://api.example.com/" "sk_test_123").url
        "/customers/cus_1" =
      some "https://api.example.com/v1/customers/cus_1" := by
  refine ⟨fun base sk h => by simp [Client.from_url, h],
    fun base sk h => by simp [Client.from_url, h],
    fun base sk path hp => by simp [Client.url, hp],
    by decide, by decide⟩

/-- C5 witness: the theorem's three general parts at the spec's scenario
inputs (and an unslashed base). -/
theorem from_url_resolves_host_and_url_witness :
    (Client.from_url "https://api.example.com/" "sk_test_123").host =
      "https://api.example.com/" ++ "v1" ∧
    (Client.from_url "https://api.example.com" "sk_test_123").host =
      "https://api.example.com" ++ "/v1" ∧
    (Client.from_url "https://api.example.com/" "sk_test_123").url
        "/customers/cus_1" =
      some ((Client.from_url "https://api.example.com/" "sk_test_123").host
        ++ "/" ++ ("/customers/cus_1").drop 1) :=
  ⟨from_url_resolves_host_and_url.1 _ "sk_test_123" (by decide),
   from_url_resolves_host_and_url.2.1 _ "sk_test_123" (by decide),
   from_url_resolves_host_and_url.2.2.1 _ "sk_test_123" _ (by decide)⟩

/-- C6: form-body encoding flattens a nested field with a bracket-notation
key (a field `k` nested under `p` gets key `p[k]`), `with_form_urlencoded`
sets the `application/x-www-form-urlencoded` Content-Type header and the
encoded body, and the spec's scenario (email plus metadata map) encodes to
`email=jdoe%40example.org&metadata[any]=thing`. -/
theorem form_encoding_brackets_and_content_type :
    (∀ (request : RequestBuilder) (body : String),
      with_form_urlencoded request (.ok body) = .ok { request with
        headers := request.headers ++
          [("content-type", "application/x-www-form-urlencoded")],
        body := some body }) ∧
    (∀ p k v : String,
      qsPairs none (.obj (.cons p (.obj (.cons k (.str v) .nil)) .nil)) =
        [(percentEncode p ++ "[" ++ percentEncode k ++ "]", percentEncode v)]) ∧
    qsEncode exampleForm = "email=jdoe%40example.org&metadata[any]=thing" :=
  ⟨fun _ _ => rfl, fun p k v => by simp [qsPairs, qsPairsFields], rfl⟩

/-- C7: when parameter serialization fails, `get_query`, `delete_query` and
`post_form` return the serialize error, and the outcome is the same for
every transport, so no request reaches the transport. -/
theorem serialize_failure_sends_no_request {T : Type} (c : Client)
    (path e : String) (parseT : String → Except String T)
    (parseErr : String → Except String ErrorResponse) :
    (∀ t, c.get_query path (.error e) t parseT parseErr =
      some (.error (.serialize e))) ∧
    (∀ t, c.delete_query path (.error e) t parseT parseErr =
      some (.error (.serialize e))) ∧
    (∀ t hs, path ≠ "" → c.headerMap = some hs →
      c.post_form path (.error e) t parseT parseErr =
        some (.error (.serialize e))) := by
  refine ⟨fun t => ?_, fun t => ?_, fun t hs hp hmap => ?_⟩
  · simp [Client.get_query, Client.url_with_params]
  · simp [Client.delete_query, Client.url_with_params]
  · simp [Client.post_form, Client.url, hp, hmap, with_form_urlencoded]

/-- C7 witness: a failing serialization on a concrete client and path, with
a concrete transport, by the theorem. -/
theorem serialize_failure_sends_no_request_witness :
    ((Client.new "sk").get_query "/x" (.error "bad") (fun _ => .error "net")
      ((fun _ => .error "no") : String → Except String Nat)
      (fun _ => .error "no") = some (.error (.serialize "bad"))) ∧
    ((Client.new "sk").post_form "/x" (.error "bad") (fun _ => .error "net")
      ((fun _ => .error "no") : String → Except String Nat)
      (fun _ => .error "no") = some (.error (.serialize "bad"))) :=
  ⟨(serialize_failure_sends_no_request (Client.new "sk") "/x" "bad" _ _).1 _,
   (serialize_failure_sends_no_request (Client.new "sk") "/x" "bad" _ _).2.2 _
     [("authorization", "Bearer sk")] (by decide) (by decide)⟩

/-- C8: `with_headers` returns a new client with the given header
configuration and the original's credential, host and transport handle
(the original value is untouched: the embedding is functional and the
source only writes to a clone); `set_stripe_account` changes only the
impersonated-account field, leaving client id, API version, credential,
host and transport handle unchanged. -/
theorem with_headers_and_set_account_frame (c : Client) (hdrs : Headers)
    (id : String) :
    (c.with_headers hdrs).headers = hdrs ∧
    (c.with_headers hdrs).secret_key = c.secret_key ∧
    (c.with_headers hdrs).host = c.host ∧
    (c.with_headers hdrs).client = c.client ∧
    (c.set_stripe_account id).headers.stripe_account = some id ∧
    (c.set_stripe_account id).headers.client_id = c.headers.client_id ∧
    (c.set_stripe_account id).headers.stripe_version = c.headers.stripe_version ∧
    (c.set_stripe_account id).secret_key = c.secret_key ∧
    (c.set_stripe_account id).host = c.host ∧
    (c.set_stripe_account id).client = c.client :=
  ⟨rfl, rfl, rfl, rfl, rfl, rfl, rfl, rfl, rfl, rfl⟩

/-- C10: the plain-path URL builder panics (modelled as `none`) exactly on
the empty path: `none` for the empty path, a value for every non-empty
path. -/
theorem url_panics_only_on_empty_path :
    (∀ c : Client, c.url "" = none) ∧
    (∀ (c : Client) (path : String), path ≠ "" → (c.url path).isSome = true) := by
  constructor
  · intro c; simp [Client.url]
  · intro c path hp; simp [Client.url, hp]

/-- C10 witness: both parts at a concrete client and path, by the
theorem. -/
theorem url_panics_only_on_empty_path_witness :
    ((Client.new "sk_test_123").url "" = none) ∧
    ((Client.new "sk_test_123").url "/customers/cus_1").isSome = true :=
  ⟨url_panics_only_on_empty_path.1 (Client.new "sk_test_123"),
   url_panics_only_on_empty_path.2 (Client.new "sk_test_123") "/customers/cus_1"
     (by decide)⟩

end Stripe
